import Mathlib

/-!
# HologramScriptHost (HoloJS/HoloJsHost/HologramJS.cpp)

A shallow embedding of the script-host orchestrator.  The host object, the static
configuration fields of the resource collaborators and the record of calls made to
external collaborators (script engine, window element, loader, graphics context) are
one explicit state value that every member function threads through.

Conventions of the embedding

* A pointer or engine handle is an `Option`; `none` is `nullptr`.
* The outcome of every call into a collaborator whose code lies outside this source
  file is an input of the embedding (the `JsEngine`, `Subsystems`, `RenderingDeps`
  and `FakeLoader` records), and every such call is appended to the call record.
* A member function ends in one of three ways: it reaches a `return` statement, it
  reaches the closing brace of a value-returning function without a `return`
  statement, or it calls a member through an empty pointer.
* `await` is sequential composition: the value of a `task<bool>` is the value it
  resolves to.
-/

namespace HologramJS

/-- WebGL::RenderMode, the enumeration stored in `m_renderMode`. -/
inductive RenderMode
  | Flat
  | AutoStereo
  | AdvancedStereo
  deriving DecidableEq, Repr

/-- Modelled from the spec: the `StereoEffectMode` enumeration is declared in
HologramJS.h, which is not part of the source tree; section 3 gives the requested
stereo preference as Auto, Advanced, or none requested. -/
inductive StereoEffectMode
  | None
  | Auto
  | Advanced
  deriving DecidableEq, Repr

/-- Modelled from the spec: `static_cast<int>(renderMode)`; the enumerator values are
declared outside the source tree and section 6 gives the coding 0 = Flat,
1 = AutoStereo, 2 = AdvancedStereo. -/
def RenderMode.toInt : RenderMode → Int
  | .Flat => 0
  | .AutoStereo => 1
  | .AdvancedStereo => 2

/-- An engine reference (JsRuntimeHandle, JsContextRef, JsValueRef) that is not null. -/
abbrev JsRef := Nat

/-- A spatial stationary frame of reference that is not null. -/
abbrev FrameRef := Nat

/-- The static configuration fields of one resource collaborator. -/
structure ResourceConfig where
  UseFileSystem : Bool
  BasePath : String
  BaseUrl : String
  deriving DecidableEq, Repr

/-- The static fields of API::XmlHttpRequest, API::ImageElement and API::VideoElement. -/
structure Statics where
  XmlHttpRequest : ResourceConfig
  ImageElement : ResourceConfig
  VideoElement : ResourceConfig
  deriving DecidableEq, Repr

/-- One call made to an external collaborator, with its arguments. -/
inductive Call
  | WindowInit
  | WindowClose
  | WindowResize (width height : Int)
  | WindowSetBaseUrl (base : String)
  | WindowSetStationaryFrameOfReference (frame : FrameRef)
  | JsCreateRuntime
  | JsCreateContext (runtime : Option JsRef)
  | JsSetCurrentContext (context : Option JsRef)
  | JsDisposeRuntime (runtime : JsRef)
  | JsGetGlobalObject
  | GetJsProperty (object : Option JsRef) (name : String)
  | JsGetPropertyIdFromName (name : String)
  | JsIntToNumber (value : Int)
  | JsSetProperty (object : Option JsRef) (propertyName : String) (number : Int)
  | SubsystemInit (name : String)
  | ProjectionsInit
  | CanvasProjectionsInit
  | ContextInitializeRendering
  | LoadScriptsAsync (manifest : String)
  | DownloadScriptsAsync (uri : String)
  | ExecuteScripts (seen : Statics)
  deriving DecidableEq, Repr

/-- The surface geometry that `m_window->Width()` and `m_window->Height()` report. -/
structure WindowElement where
  width : Int
  height : Int
  deriving DecidableEq, Repr

/-- WebGL::WebGLRenderingContext as constructed from the window and a render mode. -/
structure WebGLRenderingContext where
  renderMode : RenderMode
  deriving DecidableEq, Repr

/-- WebGL::WebGLProjections: holds the system rendering context once initialised. -/
structure WebGLProjections where
  systemRenderingContext : Option WebGLRenderingContext
  deriving DecidableEq, Repr

/-- The members of HologramScriptHost that the source file reads or writes, the static
fields of the resource collaborators, and the record of collaborator calls. -/
structure HologramScriptHost where
  m_jsRuntime : Option JsRef
  m_jsContext : Option JsRef
  m_window : Option WindowElement
  m_webglProjections : Option WebGLProjections
  m_renderMode : RenderMode
  m_webGlContextInitialized : Bool
  statics : Statics
  calls : List Call
  deriving DecidableEq, Repr

/-- How a member function ends. -/
inductive Outcome (α : Type)
  | returned (value : α) (host : HologramScriptHost)
  | fellOffEnd (host : HologramScriptHost)
  | nullDeref (host : HologramScriptHost)
  deriving DecidableEq, Repr

/-- The host state in which a member function ended. -/
def Outcome.host {α : Type} : Outcome α → HologramScriptHost
  | .returned _ h => h
  | .fellOffEnd h => h
  | .nullDeref h => h

/-- The value a member function returned, when it reached a `return` statement. -/
def Outcome.value? {α : Type} : Outcome α → Option α
  | .returned v _ => some v
  | .fellOffEnd _ => none
  | .nullDeref _ => none

/-- Append one collaborator call to the record. -/
def HologramScriptHost.call (h : HologramScriptHost) (c : Call) : HologramScriptHost :=
  { h with calls := h.calls ++ [c] }

/-- The host fields without the call record: what the object itself holds. -/
def HologramScriptHost.fields (h : HologramScriptHost) :
    Option JsRef × Option JsRef × Option WindowElement × Option WebGLProjections ×
      RenderMode × Bool × Statics :=
  (h.m_jsRuntime, h.m_jsContext, h.m_window, h.m_webglProjections, h.m_renderMode,
    h.m_webGlContextInitialized, h.statics)

/-- A freshly constructed host: the constructor body is empty, every pointer member is
empty and nothing has been called. -/
def freshHost (statics : Statics) : HologramScriptHost :=
  { m_jsRuntime := none
    m_jsContext := none
    m_window := none
    m_webglProjections := none
    m_renderMode := RenderMode.Flat
    m_webGlContextInitialized := false
    statics := statics
    calls := [] }

/-- Modelled from the spec: the RETURN_IF_FALSE macro comes from a header outside the
source tree; it is the check-and-bail sequence of section 9: when its argument is
false the enclosing function returns false at that point, otherwise it goes on. -/
def RETURN_IF_FALSE (x : Bool) (h : HologramScriptHost) (rest : Outcome Bool) :
    Outcome Bool :=
  if x then rest else Outcome.returned false h

/-- Modelled from the spec: the RETURN_IF_JS_ERROR macro comes from a header outside
the source tree; it is the check-and-bail sequence of section 9 for engine calls: when
the call reports an error code (`noError` is false) the enclosing function returns
false at that point, otherwise it goes on. -/
def RETURN_IF_JS_ERROR (noError : Bool) (h : HologramScriptHost) (rest : Outcome Bool) :
    Outcome Bool :=
  if noError then rest else Outcome.returned false h

/-- Modelled from the spec: the RETURN_IF_NULL macro comes from a header outside the
source tree; it is the check-and-bail sequence of section 9 for pointers: when the
pointer is null the enclosing function returns false at that point. -/
def RETURN_IF_NULL (notNull : Bool) (h : HologramScriptHost) (rest : Outcome Bool) :
    Outcome Bool :=
  if notNull then rest else Outcome.returned false h

/-- HologramScriptHost::Shutdown (lines 24-37). -/
def Shutdown (h : HologramScriptHost) : Outcome Unit :=
  match h.m_window with
  | none => Outcome.nullDeref h
  | some _ =>
    let h1 := h.call Call.WindowClose
    let h2 :=
      match h1.m_jsContext with
      | some _ => { (h1.call (Call.JsSetCurrentContext none)) with m_jsContext := none }
      | none => h1
    let h3 :=
      match h2.m_jsRuntime with
      | some rt => { (h2.call (Call.JsDisposeRuntime rt)) with m_jsRuntime := none }
      | none => h2
    Outcome.returned () h3

/-- The destructor (line 22): it calls Shutdown and nothing else. -/
def destructor (h : HologramScriptHost) : Outcome Unit :=
  Shutdown h

/-- The dimension test of line 102. -/
def dimensionsValid (w : WindowElement) : Bool :=
  decide (w.width > 0) && decide (w.width < 0xffffff) &&
    decide (w.height > 0) && decide (w.height < 0xffffff)

/-- HologramScriptHost::TryInitializeWebGlContext (lines 96-109).  The argument
`graphicsOk` is what the rendering context's own InitializeRendering reports.  After
line 104 control reaches the closing brace of line 109 without a `return` statement. -/
def TryInitializeWebGlContext (graphicsOk : Bool) (h : HologramScriptHost) : Outcome Bool :=
  if h.m_webGlContextInitialized then
    Outcome.returned true h
  else
    match h.m_window with
    | none => Outcome.nullDeref h
    | some w =>
      if dimensionsValid w then
        match h.m_webglProjections with
        | none => Outcome.nullDeref h
        | some p =>
          match p.systemRenderingContext with
          | none => Outcome.nullDeref h
          | some _ =>
            let h1 := h.call Call.ContextInitializeRendering
            RETURN_IF_FALSE graphicsOk h1 <|
            Outcome.fellOffEnd { h1 with m_webGlContextInitialized := true }
      else
        Outcome.returned false h

/-- The script engine as the host sees it: what each engine call reports.  `none` or
`false` is an error code other than JsNoError.  An engine call that reports an error
leaves its output argument as it was. -/
structure JsEngine where
  createRuntime : Option JsRef
  createContext : Option JsRef
  setCurrentContextOk : Bool
  globalObject : Option JsRef
  holographic : Option JsRef
  propertyIdOk : Bool
  intToNumberOk : Bool
  setPropertyOk : Bool
  deriving DecidableEq, Repr

/-- What the Initialize member of each auxiliary subsystem reports (lines 50-59). -/
structure Subsystems where
  scriptEventsManagerOk : Bool
  xmlHttpRequestOk : Bool
  imageElementOk : Bool
  videoElementOk : Bool
  systemOk : Bool
  timersOk : Bool
  deriving DecidableEq, Repr

/-- HologramScriptHost::InitializeSystem (lines 39-62), release build (the `_DEBUG`
block is compiled out). -/
def InitializeSystem (js : JsEngine) (sub : Subsystems) (h : HologramScriptHost) :
    Outcome Bool :=
  let h1 := h.call Call.JsCreateRuntime
  RETURN_IF_JS_ERROR js.createRuntime.isSome h1 <|
  let h2 := { h1 with m_jsRuntime := js.createRuntime }
  let h3 := h2.call (Call.JsCreateContext h2.m_jsRuntime)
  RETURN_IF_JS_ERROR js.createContext.isSome h3 <|
  let h4 := { h3 with m_jsContext := js.createContext }
  let h5 := h4.call (Call.JsSetCurrentContext h4.m_jsContext)
  RETURN_IF_JS_ERROR js.setCurrentContextOk h5 <|
  let h6 := h5.call (Call.SubsystemInit "m_scriptEventsManager")
  RETURN_IF_FALSE sub.scriptEventsManagerOk h6 <|
  let h7 := h6.call (Call.SubsystemInit "API::XmlHttpRequest")
  RETURN_IF_FALSE sub.xmlHttpRequestOk h7 <|
  let h8 := h7.call (Call.SubsystemInit "API::ImageElement")
  RETURN_IF_FALSE sub.imageElementOk h8 <|
  let h9 := h8.call (Call.SubsystemInit "API::VideoElement")
  RETURN_IF_FALSE sub.videoElementOk h9 <|
  let h10 := h9.call (Call.SubsystemInit "m_system")
  RETURN_IF_FALSE sub.systemOk h10 <|
  let h11 := h10.call (Call.SubsystemInit "m_timers")
  RETURN_IF_FALSE sub.timersOk h11 <|
  Outcome.returned true h11

/-- HologramScriptHost::EnableHolographicExperimental (lines 181-204).  The property
id obtained from the name "renderMode" is recorded by that name, and the number value
made by JsIntToNumber by the integer it was made from. -/
def EnableHolographicExperimental (js : JsEngine) (frameOfReference : Option FrameRef)
    (renderMode : RenderMode) (h : HologramScriptHost) : Outcome Bool :=
  let h1 := h.call Call.JsGetGlobalObject
  RETURN_IF_JS_ERROR js.globalObject.isSome h1 <|
  let globalObject := js.globalObject
  let h2 := h1.call (Call.GetJsProperty globalObject "holographic")
  RETURN_IF_FALSE js.holographic.isSome h2 <|
  let holographicRef := js.holographic
  let h3 := h2.call (Call.JsGetPropertyIdFromName "renderMode")
  RETURN_IF_JS_ERROR js.propertyIdOk h3 <|
  let h4 := h3.call (Call.JsIntToNumber renderMode.toInt)
  RETURN_IF_JS_ERROR js.intToNumberOk h4 <|
  let h5 := h4.call (Call.JsSetProperty holographicRef "renderMode" renderMode.toInt)
  RETURN_IF_JS_ERROR js.setPropertyOk h5 <|
  match frameOfReference with
  | some frame =>
    match h5.m_window with
    | none => Outcome.nullDeref h5
    | some _ =>
      Outcome.returned true (h5.call (Call.WindowSetStationaryFrameOfReference frame))
  | none => Outcome.returned true h5

/-- Modelled from the spec: HologramScriptHost::ResizeWindow is defined outside the
source tree; section 4.3 step 2 has it resize the surface to (width, height), which
section 4.2 describes as updating the surface geometry.  The retry of the rendering
gate is the separate step 4, which line 87 performs. -/
def ResizeWindow (width height : Int) (h : HologramScriptHost) : Outcome Unit :=
  match h.m_window with
  | none => Outcome.nullDeref h
  | some _ =>
    Outcome.returned ()
      { (h.call (Call.WindowResize width height)) with
        m_window := some { width := width, height := height } }

/-- What the collaborators used by InitializeRendering report: the geometry of a
newly made window element, whether its Initialize succeeds, whether `new` gave a
rendering context, and the results of the projection, graphics and canvas
initialisations. -/
structure RenderingDeps where
  newWindow : WindowElement
  windowInitOk : Bool
  contextAllocated : Bool
  projectionsInitOk : Bool
  graphicsOk : Bool
  canvasInitOk : Bool
  deriving DecidableEq, Repr

/-- HologramScriptHost::InitializeRendering (lines 64-94).  The values returned by
TryInitializeWebGlContext (line 87) and EnableHolographicExperimental (line 91) are
discarded, as in the source. -/
def InitializeRendering (js : JsEngine) (deps : RenderingDeps)
    (frameOfReference : Option FrameRef) (stereoMode : StereoEffectMode)
    (width height : Int) (h : HologramScriptHost) : Outcome Bool :=
  let h1 := { h with m_window := some deps.newWindow }.call Call.WindowInit
  RETURN_IF_FALSE deps.windowInitOk h1 <|
  let h2 :=
    { h1 with
      m_renderMode :=
        if frameOfReference = none then RenderMode.Flat
        else if stereoMode = StereoEffectMode.Auto then RenderMode.AutoStereo
        else RenderMode.AdvancedStereo }
  match ResizeWindow width height h2 with
  | Outcome.nullDeref x => Outcome.nullDeref x
  | Outcome.fellOffEnd x => Outcome.fellOffEnd x
  | Outcome.returned _ h3 =>
    let h4 := { h3 with m_webglProjections := some { systemRenderingContext := none } }
    let systemRenderingContext : WebGLRenderingContext := { renderMode := h4.m_renderMode }
    RETURN_IF_NULL deps.contextAllocated h4 <|
    let h5 := h4.call Call.ProjectionsInit
    RETURN_IF_FALSE deps.projectionsInitOk h5 <|
    let h6 :=
      { h5 with
        m_webglProjections := some { systemRenderingContext := some systemRenderingContext } }
    match TryInitializeWebGlContext deps.graphicsOk h6 with
    | Outcome.nullDeref x => Outcome.nullDeref x
    | Outcome.returned _ h7 | Outcome.fellOffEnd h7 =>
      let h8 := h7.call Call.CanvasProjectionsInit
      RETURN_IF_FALSE deps.canvasInitOk h8 <|
      match EnableHolographicExperimental js frameOfReference h8.m_renderMode h8 with
      | Outcome.nullDeref x => Outcome.nullDeref x
      | Outcome.returned _ h9 | Outcome.fellOffEnd h9 => Outcome.returned true h9

/-- A fake loader: what its first and its second load stage report. -/
structure FakeLoader where
  stage1 : Bool
  stage2 : Bool
  deriving DecidableEq, Repr

/-- The static helpers of ScriptsLoader that the source calls; their code is outside
the source tree, so they are parameters of the embedding. -/
structure ScriptsLoaderHelpers where
  IsAbsoluteWebUri : String → Bool
  GetFileSystemBasePathForJsonPath : String → String
  GetBaseUriForJsonUri : String → String

/-- The fixed bootstrap manifest of lines 126 and 155. -/
def frameworkManifest : String := "hologramjs\\scriptingframework\\framework.json"

/-- HologramScriptHost::RunLocalScriptApp (lines 122-148); the result is the value the
task resolves to.  ExecuteScripts is recorded together with the resource
configuration in force when it is called. -/
def RunLocalScriptApp (sl : ScriptsLoaderHelpers) (loader : FakeLoader)
    (jsonFilePath : String) (h : HologramScriptHost) : Outcome Bool :=
  let h1 := h.call (Call.LoadScriptsAsync frameworkManifest)
  let loadResult := loader.stage1
  let step2 : Bool × HologramScriptHost :=
    if loadResult then (loader.stage2, h1.call (Call.LoadScriptsAsync jsonFilePath))
    else (loadResult, h1)
  let loadResult := step2.1
  let h2 := step2.2
  if loadResult then
    let st := h2.statics
    let st := { st with XmlHttpRequest := { st.XmlHttpRequest with UseFileSystem := true } }
    let st := { st with ImageElement := { st.ImageElement with UseFileSystem := true } }
    let st := { st with VideoElement := { st.VideoElement with UseFileSystem := true } }
    let basePath := sl.GetFileSystemBasePathForJsonPath jsonFilePath
    let st := { st with XmlHttpRequest := { st.XmlHttpRequest with BasePath := basePath } }
    let st := { st with ImageElement := { st.ImageElement with BasePath := basePath } }
    let st := { st with VideoElement := { st.VideoElement with BasePath := basePath } }
    let h3 := { h2 with statics := st }
    match h3.m_window with
    | none => Outcome.nullDeref h3
    | some _ =>
      let h4 := h3.call (Call.WindowSetBaseUrl basePath)
      let h5 := h4.call (Call.ExecuteScripts h4.statics)
      Outcome.returned true h5
  else
    Outcome.returned true h2

/-- HologramScriptHost::RunWebScriptApp (lines 150-179). -/
def RunWebScriptApp (sl : ScriptsLoaderHelpers) (loader : FakeLoader)
    (jsonUri : String) (h : HologramScriptHost) : Outcome Bool :=
  let jsonUriString := jsonUri
  let h1 := h.call (Call.LoadScriptsAsync frameworkManifest)
  let loadResult := loader.stage1
  let step2 : Bool × HologramScriptHost :=
    if loadResult then (loader.stage2, h1.call (Call.DownloadScriptsAsync jsonUriString))
    else (loadResult, h1)
  let loadResult := step2.1
  let h2 := step2.2
  if loadResult then
    let st := h2.statics
    let st := { st with XmlHttpRequest := { st.XmlHttpRequest with UseFileSystem := false } }
    let st := { st with ImageElement := { st.ImageElement with UseFileSystem := false } }
    let st := { st with VideoElement := { st.VideoElement with UseFileSystem := false } }
    let basePath := sl.GetBaseUriForJsonUri jsonUriString
    let h3 := { h2 with statics := st }
    match h3.m_window with
    | none => Outcome.nullDeref h3
    | some _ =>
      let h4 := h3.call (Call.WindowSetBaseUrl basePath)
      let st := h4.statics
      let st := { st with XmlHttpRequest := { st.XmlHttpRequest with BaseUrl := basePath } }
      let st := { st with ImageElement := { st.ImageElement with BaseUrl := basePath } }
      let st := { st with VideoElement := { st.VideoElement with BaseUrl := basePath } }
      let h5 := { h4 with statics := st }
      let h6 := h5.call (Call.ExecuteScripts h5.statics)
      Outcome.returned true h6
  else
    Outcome.returned true h2

/-- HologramScriptHost::RunApp (lines 111-120). -/
def RunApp (sl : ScriptsLoaderHelpers) (loader : FakeLoader) (appUri : String)
    (h : HologramScriptHost) : Outcome Bool :=
  if sl.IsAbsoluteWebUri appUri then RunWebScriptApp sl loader appUri h
  else RunLocalScriptApp sl loader appUri h

/-- A call made to the loader, without the configuration seen by ExecuteScripts. -/
inductive LoaderCall
  | LoadScriptsAsync (manifest : String)
  | DownloadScriptsAsync (uri : String)
  | ExecuteScripts
  deriving DecidableEq, Repr

/-- The loader call that a recorded call is, when it is one. -/
def Call.loaderCall? : Call → Option LoaderCall
  | .LoadScriptsAsync m => some (LoaderCall.LoadScriptsAsync m)
  | .DownloadScriptsAsync u => some (LoaderCall.DownloadScriptsAsync u)
  | .ExecuteScripts _ => some LoaderCall.ExecuteScripts
  | _ => none

/-- The calls a member function added to the record of the host it started from. -/
def newCalls {α : Type} (h : HologramScriptHost) (out : Outcome α) : List Call :=
  out.host.calls.drop h.calls.length

/-- The loader calls among the calls a member function made, in order. -/
def loaderCalls {α : Type} (h : HologramScriptHost) (out : Outcome α) : List LoaderCall :=
  (newCalls h out).filterMap Call.loaderCall?

/-! ## Concrete inputs -/

/-- Resource collaborators with nothing configured yet. -/
def unsetStatics : Statics :=
  { XmlHttpRequest := { UseFileSystem := false, BasePath := "", BaseUrl := "" }
    ImageElement := { UseFileSystem := false, BasePath := "", BaseUrl := "" }
    VideoElement := { UseFileSystem := false, BasePath := "", BaseUrl := "" } }

/-- A host after a successful InitializeSystem, before InitializeRendering. -/
def systemReadyHost : HologramScriptHost :=
  { freshHost unsetStatics with m_jsRuntime := some 1, m_jsContext := some 2 }

/-- A host whose system and rendering are initialised, with a `width` by `height`
surface and the WebGL context not yet initialised. -/
def renderingReadyHost (width height : Int) : HologramScriptHost :=
  { systemReadyHost with
    m_window := some { width := width, height := height }
    m_webglProjections :=
      some { systemRenderingContext := some { renderMode := RenderMode.Flat } } }

/-- An engine on which every call succeeds. -/
def workingEngine : JsEngine :=
  { createRuntime := some 1
    createContext := some 2
    setCurrentContextOk := true
    globalObject := some 3
    holographic := some 4
    propertyIdOk := true
    intToNumberOk := true
    setPropertyOk := true }

/-- An engine that creates a runtime and then fails to create a context. -/
def contextFailingEngine : JsEngine :=
  { workingEngine with createContext := none }

/-- An engine on which JsGetGlobalObject reports an error. -/
def globalObjectFailingEngine : JsEngine :=
  { workingEngine with globalObject := none }

/-- Auxiliary subsystems that all initialise. -/
def workingSubsystems : Subsystems :=
  { scriptEventsManagerOk := true
    xmlHttpRequestOk := true
    imageElementOk := true
    videoElementOk := true
    systemOk := true
    timersOk := true }

/-- Rendering collaborators that all succeed. -/
def workingDeps : RenderingDeps :=
  { newWindow := { width := 0, height := 0 }
    windowInitOk := true
    contextAllocated := true
    projectionsInitOk := true
    graphicsOk := true
    canvasInitOk := true }

/-- Keep a path up to and including its last `/`. -/
def keepThroughLastSlash (path : String) : String :=
  String.mk (path.data.reverse.dropWhile (fun c => c != '/')).reverse

/-- An instance of the loader helpers for concrete inputs: a locator is remote when it
starts with `http`, and both base functions keep the text through the last `/`. -/
def exampleHelpers : ScriptsLoaderHelpers :=
  { IsAbsoluteWebUri := fun s => "http".data.isPrefixOf s.data
    GetFileSystemBasePathForJsonPath := keepThroughLastSlash
    GetBaseUriForJsonUri := keepThroughLastSlash }

/-! ## Helper lemmas -/

theorem TryInitializeWebGlContext_renderMode (g : Bool) (h : HologramScriptHost) :
    (TryInitializeWebGlContext g h).host.m_renderMode = h.m_renderMode := by
  unfold TryInitializeWebGlContext RETURN_IF_FALSE
  split
  · rfl
  · split
    · rfl
    · split
      · split
        · rfl
        · split
          · rfl
          · cases g <;> rfl
      · rfl

theorem EnableHolographicExperimental_renderMode (js : JsEngine) (f : Option FrameRef)
    (m : RenderMode) (h : HologramScriptHost) :
    (EnableHolographicExperimental js f m h).host.m_renderMode = h.m_renderMode := by
  unfold EnableHolographicExperimental RETURN_IF_FALSE RETURN_IF_JS_ERROR
  simp only []
  repeat (first | rfl | split)

/-! ## The loading pipeline -/

/-- C1: on a host with a window, the loader calls made by RunLocalScriptApp, and
likewise by RunWebScriptApp, are: the fixed bootstrap manifest load first; the
caller-supplied manifest load (LoadScriptsAsync for local, DownloadScriptsAsync for
remote) second, made exactly when the first stage reported success; ExecuteScripts
last, made exactly when both stages reported success.  In particular ExecuteScripts is
among the loader calls if and only if both stages succeeded. -/
theorem loader_call_sequence (sl : ScriptsLoaderHelpers) (loader : FakeLoader)
    (locator : String) (h : HologramScriptHost) (w : WindowElement)
    (hw : h.m_window = some w) :
    loaderCalls h (RunLocalScriptApp sl loader locator h) =
        [LoaderCall.LoadScriptsAsync frameworkManifest]
          ++ (if loader.stage1 then [LoaderCall.LoadScriptsAsync locator] else [])
          ++ (if loader.stage1 && loader.stage2 then [LoaderCall.ExecuteScripts] else [])
      ∧ loaderCalls h (RunWebScriptApp sl loader locator h) =
        [LoaderCall.LoadScriptsAsync frameworkManifest]
          ++ (if loader.stage1 then [LoaderCall.DownloadScriptsAsync locator] else [])
          ++ (if loader.stage1 && loader.stage2 then [LoaderCall.ExecuteScripts] else [])
      ∧ (LoaderCall.ExecuteScripts ∈ loaderCalls h (RunLocalScriptApp sl loader locator h)
          ↔ loader.stage1 = true ∧ loader.stage2 = true)
      ∧ (LoaderCall.ExecuteScripts ∈ loaderCalls h (RunWebScriptApp sl loader locator h)
          ↔ loader.stage1 = true ∧ loader.stage2 = true) := by
  obtain ⟨s1, s2⟩ := loader
  cases s1 <;> cases s2 <;>
    simp [loaderCalls, newCalls, RunLocalScriptApp, RunWebScriptApp,
      HologramScriptHost.call, hw, Outcome.host, Call.loaderCall?, List.append_assoc]

/-- Witness of C1: a local locator, a loader whose first stage succeeds and whose
second fails, on a host with an 800 by 600 surface. -/
theorem loader_call_sequence_witness :
    loaderCalls (renderingReadyHost 800 600)
        (RunLocalScriptApp exampleHelpers ⟨true, false⟩ "app/manifest.json"
          (renderingReadyHost 800 600)) =
        [LoaderCall.LoadScriptsAsync frameworkManifest]
          ++ (if (FakeLoader.mk true false).stage1
              then [LoaderCall.LoadScriptsAsync "app/manifest.json"] else [])
          ++ (if (FakeLoader.mk true false).stage1 && (FakeLoader.mk true false).stage2
              then [LoaderCall.ExecuteScripts] else [])
      ∧ loaderCalls (renderingReadyHost 800 600)
        (RunWebScriptApp exampleHelpers ⟨true, false⟩ "app/manifest.json"
          (renderingReadyHost 800 600)) =
        [LoaderCall.LoadScriptsAsync frameworkManifest]
          ++ (if (FakeLoader.mk true false).stage1
              then [LoaderCall.DownloadScriptsAsync "app/manifest.json"] else [])
          ++ (if (FakeLoader.mk true false).stage1 && (FakeLoader.mk true false).stage2
              then [LoaderCall.ExecuteScripts] else [])
      ∧ (LoaderCall.ExecuteScripts ∈ loaderCalls (renderingReadyHost 800 600)
            (RunLocalScriptApp exampleHelpers ⟨true, false⟩ "app/manifest.json"
              (renderingReadyHost 800 600))
          ↔ (FakeLoader.mk true false).stage1 = true
            ∧ (FakeLoader.mk true false).stage2 = true)
      ∧ (LoaderCall.ExecuteScripts ∈ loaderCalls (renderingReadyHost 800 600)
            (RunWebScriptApp exampleHelpers ⟨true, false⟩ "app/manifest.json"
              (renderingReadyHost 800 600))
          ↔ (FakeLoader.mk true false).stage1 = true
            ∧ (FakeLoader.mk true false).stage2 = true) :=
  loader_call_sequence exampleHelpers ⟨true, false⟩ "app/manifest.json"
    (renderingReadyHost 800 600) ⟨800, 600⟩ rfl

/-- C2 (the code at the failing input): when the bootstrap load fails, whatever the
locator and whatever the second stage would report, RunApp makes the bootstrap load
and resolves to true, not to false; and when the bootstrap load succeeds and the
application-manifest load fails, RunApp resolves to true as well: lines 147 and 178
return the constant true. -/
theorem RunApp_resolves_true_after_failed_load (sl : ScriptsLoaderHelpers)
    (stage2 : Bool) (locator : String) (h : HologramScriptHost) :
    RunApp sl ⟨false, stage2⟩ locator h
        = Outcome.returned true (h.call (Call.LoadScriptsAsync frameworkManifest))
      ∧ (RunApp sl ⟨true, false⟩ locator h).value? = some true := by
  unfold RunApp
  constructor <;> split <;> simp [RunLocalScriptApp, RunWebScriptApp, Outcome.value?]

/-! ## The rendering gate -/

/-- C3: whenever the window element initialises, so that InitializeRendering reaches
the assignment of lines 73-76, the render mode held in m_renderMode when the function
ends (on every later path, failing or not) is Flat when the frame of reference is
null, AutoStereo when it is non-null and the preference is Auto, and AdvancedStereo
when it is non-null and the preference is anything else; hence it is Flat if and only
if no frame of reference was supplied. -/
theorem InitializeRendering_renderMode (js : JsEngine) (deps : RenderingDeps)
    (frameOfReference : Option FrameRef) (stereoMode : StereoEffectMode)
    (width height : Int) (h : HologramScriptHost) (hwin : deps.windowInitOk = true) :
    (frameOfReference = none →
        (InitializeRendering js deps frameOfReference stereoMode width height h).host.m_renderMode
          = RenderMode.Flat)
      ∧ (frameOfReference ≠ none → stereoMode = StereoEffectMode.Auto →
        (InitializeRendering js deps frameOfReference stereoMode width height h).host.m_renderMode
          = RenderMode.AutoStereo)
      ∧ (frameOfReference ≠ none → stereoMode ≠ StereoEffectMode.Auto →
        (InitializeRendering js deps frameOfReference stereoMode width height h).host.m_renderMode
          = RenderMode.AdvancedStereo)
      ∧ ((InitializeRendering js deps frameOfReference stereoMode width height
            h).host.m_renderMode = RenderMode.Flat ↔ frameOfReference = none) := by
  have key :
      (InitializeRendering js deps frameOfReference stereoMode width height h).host.m_renderMode
        = (if frameOfReference = none then RenderMode.Flat
            else if stereoMode = StereoEffectMode.Auto then RenderMode.AutoStereo
            else RenderMode.AdvancedStereo) := by
    unfold InitializeRendering
    simp only [RETURN_IF_FALSE, RETURN_IF_NULL, hwin, if_true, ResizeWindow,
      HologramScriptHost.call]
    cases deps.contextAllocated
    · rfl
    cases deps.projectionsInitOk
    · rfl
    simp only [if_true]
    generalize hT : TryInitializeWebGlContext _ _ = t
    have hTm := congrArg (fun o : Outcome Bool => o.host.m_renderMode) hT
    simp only [TryInitializeWebGlContext_renderMode] at hTm
    cases deps.canvasInitOk
    · cases t <;> simpa [Outcome.host] using hTm.symm
    cases t with
    | nullDeref x => simpa [Outcome.host] using hTm.symm
    | returned v x =>
      simp only [Outcome.host] at hTm
      simp only [if_true]
      generalize hE : EnableHolographicExperimental _ _ _ _ = e
      have hEm := congrArg (fun o : Outcome Bool => o.host.m_renderMode) hE
      simp only [EnableHolographicExperimental_renderMode] at hEm
      cases e <;> simpa [Outcome.host, hTm] using hEm.symm
    | fellOffEnd x =>
      simp only [Outcome.host] at hTm
      simp only [if_true]
      generalize hE : EnableHolographicExperimental _ _ _ _ = e
      have hEm := congrArg (fun o : Outcome Bool => o.host.m_renderMode) hE
      simp only [EnableHolographicExperimental_renderMode] at hEm
      cases e <;> simpa [Outcome.host, hTm] using hEm.symm
  rw [key]
  cases frameOfReference <;> cases stereoMode <;> simp

/-- Witness of C3: a non-null frame of reference with the Advanced preference, on a
host whose system is ready. -/
theorem InitializeRendering_renderMode_witness :
    ((some 9 : Option FrameRef) = none →
        (InitializeRendering workingEngine workingDeps (some 9) StereoEffectMode.Advanced
          800 600 systemReadyHost).host.m_renderMode = RenderMode.Flat)
      ∧ ((some 9 : Option FrameRef) ≠ none →
          StereoEffectMode.Advanced = StereoEffectMode.Auto →
        (InitializeRendering workingEngine workingDeps (some 9) StereoEffectMode.Advanced
          800 600 systemReadyHost).host.m_renderMode = RenderMode.AutoStereo)
      ∧ ((some 9 : Option FrameRef) ≠ none →
          StereoEffectMode.Advanced ≠ StereoEffectMode.Auto →
        (InitializeRendering workingEngine workingDeps (some 9) StereoEffectMode.Advanced
          800 600 systemReadyHost).host.m_renderMode = RenderMode.AdvancedStereo)
      ∧ ((InitializeRendering workingEngine workingDeps (some 9) StereoEffectMode.Advanced
          800 600 systemReadyHost).host.m_renderMode = RenderMode.Flat
          ↔ (some 9 : Option FrameRef) = none) :=
  InitializeRendering_renderMode workingEngine workingDeps (some 9)
    StereoEffectMode.Advanced 800 600 systemReadyHost rfl

/-- C4 (the code at the failing input): on a host with an 800 by 600 surface whose
WebGL context is not yet initialised and whose graphics initialisation succeeds,
TryInitializeWebGlContext invokes the graphics initialisation once and sets the
initialised flag, but then reaches the end of the function without a `return`
statement: it does not return true.  The next call does return true and makes no
further call. -/
theorem TryInitializeWebGlContext_valid_dimensions_no_return :
    TryInitializeWebGlContext true (renderingReadyHost 800 600)
        = Outcome.fellOffEnd
            { renderingReadyHost 800 600 with
              m_webGlContextInitialized := true
              calls := [Call.ContextInitializeRendering] }
      ∧ (TryInitializeWebGlContext true (renderingReadyHost 800 600)).value? ≠ some true
      ∧ TryInitializeWebGlContext true
          (TryInitializeWebGlContext true (renderingReadyHost 800 600)).host
        = Outcome.returned true
            { renderingReadyHost 800 600 with
              m_webGlContextInitialized := true
              calls := [Call.ContextInitializeRendering] } := by
  refine ⟨?_, ?_, ?_⟩ <;>
    simp [TryInitializeWebGlContext, renderingReadyHost, systemReadyHost, freshHost,
      dimensionsValid, RETURN_IF_FALSE, HologramScriptHost.call, Outcome.value?, Outcome.host]

/-- C5: when the WebGL context is not yet initialised and the surface width or height
is at most 0 or at least 0xFFFFFF, TryInitializeWebGlContext returns false and ends in
the very state it started from: the graphics initialisation is not invoked (the call
record is unchanged) and the initialised flag and every other member are unchanged.
A later call with dimensions in range, a rendering context in place and a succeeding
graphics initialisation then does initialise the context. -/
theorem TryInitializeWebGlContext_deferred (graphicsOk : Bool) (h : HologramScriptHost)
    (w : WindowElement) (hinit : h.m_webGlContextInitialized = false)
    (hw : h.m_window = some w)
    (hdim : w.width ≤ 0 ∨ w.width ≥ 0xFFFFFF ∨ w.height ≤ 0 ∨ w.height ≥ 0xFFFFFF) :
    TryInitializeWebGlContext graphicsOk h = Outcome.returned false h
      ∧ ∀ (w2 : WindowElement) (ctx : WebGLRenderingContext),
          0 < w2.width → w2.width < 0xFFFFFF → 0 < w2.height → w2.height < 0xFFFFFF →
          h.m_webglProjections = some { systemRenderingContext := some ctx } →
          (TryInitializeWebGlContext true
              { (TryInitializeWebGlContext graphicsOk h).host with m_window := some w2 }
            ).host.m_webGlContextInitialized = true
          ∧ newCalls h (TryInitializeWebGlContext true
              { (TryInitializeWebGlContext graphicsOk h).host with m_window := some w2 })
            = [Call.ContextInitializeRendering] := by
  have hinvalid : dimensionsValid w = false := by
    simp only [dimensionsValid, Bool.and_eq_false_iff, decide_eq_false_iff_not, not_lt]
    omega
  have hfirst : TryInitializeWebGlContext graphicsOk h = Outcome.returned false h := by
    simp [TryInitializeWebGlContext, hinit, hw, hinvalid]
  refine ⟨hfirst, ?_⟩
  intro w2 ctx h1 h2 h3 h4 hp
  have hvalid : dimensionsValid w2 = true := by
    simp [dimensionsValid, h1, h2, h3, h4]
  rw [hfirst]
  simp [Outcome.host, TryInitializeWebGlContext, hinit, hp, hvalid,
    RETURN_IF_FALSE, HologramScriptHost.call, newCalls]

/-- Witness of C5: a 0 by 0 surface. -/
theorem TryInitializeWebGlContext_deferred_witness :
    TryInitializeWebGlContext true (renderingReadyHost 0 0)
        = Outcome.returned false (renderingReadyHost 0 0)
      ∧ ∀ (w2 : WindowElement) (ctx : WebGLRenderingContext),
          0 < w2.width → w2.width < 0xFFFFFF → 0 < w2.height → w2.height < 0xFFFFFF →
          (renderingReadyHost 0 0).m_webglProjections
            = some { systemRenderingContext := some ctx } →
          (TryInitializeWebGlContext true
              { (TryInitializeWebGlContext true (renderingReadyHost 0 0)).host with
                m_window := some w2 }
            ).host.m_webGlContextInitialized = true
          ∧ newCalls (renderingReadyHost 0 0) (TryInitializeWebGlContext true
              { (TryInitializeWebGlContext true (renderingReadyHost 0 0)).host with
                m_window := some w2 })
            = [Call.ContextInitializeRendering] :=
  TryInitializeWebGlContext_deferred true (renderingReadyHost 0 0) ⟨0, 0⟩ rfl rfl
    (Or.inl (le_refl 0))

/-! ## The engine lifecycle -/

/-- C6: on a host holding a runtime, a context and a window, Shutdown closes the
window, clears the current context, then disposes the runtime, and leaves both handles
empty; a second Shutdown only closes the window again: it clears and disposes nothing
and leaves every member as the first call left it.  Across the two calls the current
context is cleared once and the runtime is disposed once, the clearing first. -/
theorem Shutdown_twice (h : HologramScriptHost) (rt cx : JsRef) (w : WindowElement)
    (hr : h.m_jsRuntime = some rt) (hc : h.m_jsContext = some cx)
    (hw : h.m_window = some w) :
    Shutdown h = Outcome.returned ()
        { h with
          m_jsRuntime := none
          m_jsContext := none
          calls := h.calls ++
            [Call.WindowClose, Call.JsSetCurrentContext none, Call.JsDisposeRuntime rt] }
      ∧ (Shutdown h).host.m_jsContext = none
      ∧ (Shutdown h).host.m_jsRuntime = none
      ∧ Shutdown (Shutdown h).host
        = Outcome.returned () ((Shutdown h).host.call Call.WindowClose)
      ∧ (Shutdown (Shutdown h).host).host.fields = (Shutdown h).host.fields
      ∧ newCalls h (Shutdown (Shutdown h).host)
        = [Call.WindowClose, Call.JsSetCurrentContext none, Call.JsDisposeRuntime rt,
            Call.WindowClose] := by
  have hfirst : Shutdown h = Outcome.returned ()
      { h with
        m_jsRuntime := none
        m_jsContext := none
        calls := h.calls ++
          [Call.WindowClose, Call.JsSetCurrentContext none, Call.JsDisposeRuntime rt] } := by
    simp [Shutdown, hr, hc, hw, HologramScriptHost.call]
  refine ⟨hfirst, ?_, ?_, ?_, ?_, ?_⟩ <;> rw [hfirst] <;>
    simp [Shutdown, hw, HologramScriptHost.call, Outcome.host, HologramScriptHost.fields,
      newCalls]

/-- Witness of C6: a host with runtime 1, context 2 and an 800 by 600 window. -/
theorem Shutdown_twice_witness :
    Shutdown (renderingReadyHost 800 600) = Outcome.returned ()
        { renderingReadyHost 800 600 with
          m_jsRuntime := none
          m_jsContext := none
          calls := (renderingReadyHost 800 600).calls ++
            [Call.WindowClose, Call.JsSetCurrentContext none, Call.JsDisposeRuntime 1] }
      ∧ (Shutdown (renderingReadyHost 800 600)).host.m_jsContext = none
      ∧ (Shutdown (renderingReadyHost 800 600)).host.m_jsRuntime = none
      ∧ Shutdown (Shutdown (renderingReadyHost 800 600)).host
        = Outcome.returned ()
            ((Shutdown (renderingReadyHost 800 600)).host.call Call.WindowClose)
      ∧ (Shutdown (Shutdown (renderingReadyHost 800 600)).host).host.fields
        = (Shutdown (renderingReadyHost 800 600)).host.fields
      ∧ newCalls (renderingReadyHost 800 600)
          (Shutdown (Shutdown (renderingReadyHost 800 600)).host)
        = [Call.WindowClose, Call.JsSetCurrentContext none, Call.JsDisposeRuntime 1,
            Call.WindowClose] :=
  Shutdown_twice (renderingReadyHost 800 600) 1 2 ⟨800, 600⟩ rfl rfl rfl

/-- C7 (the code at the failing input): on a freshly constructed host, whose window
pointer is empty, Shutdown, and so the destructor, calls Close through the empty
m_window pointer at line 26: it does not complete as a no-op. -/
theorem Shutdown_fresh_host_null_deref (statics : Statics) :
    Shutdown (freshHost statics) = Outcome.nullDeref (freshHost statics)
      ∧ destructor (freshHost statics) = Outcome.nullDeref (freshHost statics) := by
  constructor <;> rfl

/-- C8 (counterexample): when the engine creates runtime 1 and then fails to create a
context, InitializeSystem on a fresh host returns false while m_jsRuntime still holds
runtime 1 and no JsDisposeRuntime call was made. -/
theorem InitializeSystem_retains_runtime :
    (InitializeSystem contextFailingEngine workingSubsystems (freshHost unsetStatics)).value?
        = some false
      ∧ (InitializeSystem contextFailingEngine workingSubsystems
          (freshHost unsetStatics)).host.m_jsRuntime = some 1
      ∧ (InitializeSystem contextFailingEngine workingSubsystems
          (freshHost unsetStatics)).host.calls
        = [Call.JsCreateRuntime, Call.JsCreateContext (some 1)]
      ∧ ¬ ((InitializeSystem contextFailingEngine workingSubsystems
            (freshHost unsetStatics)).host.m_jsRuntime = none
          ∧ (InitializeSystem contextFailingEngine workingSubsystems
            (freshHost unsetStatics)).host.m_jsContext = none) := by
  simp [InitializeSystem, contextFailingEngine, workingEngine, freshHost,
    RETURN_IF_JS_ERROR, HologramScriptHost.call, Outcome.value?, Outcome.host]

/-- C8 (amended): from the Uninitialized state (both handles empty), whenever runtime
creation, context creation or making the context current fails, InitializeSystem
returns false at the failing call: it initialises no auxiliary subsystem and disposes
nothing, so the runtime handle holds whatever runtime was created and the context
handle whatever context was created; both are empty exactly when runtime creation
itself failed. -/
theorem InitializeSystem_engine_failure (js : JsEngine) (sub : Subsystems)
    (h : HologramScriptHost) (hr : h.m_jsRuntime = none) (hc : h.m_jsContext = none)
    (hfail : js.createRuntime = none ∨ js.createContext = none
      ∨ js.setCurrentContextOk = false) :
    (InitializeSystem js sub h).value? = some false
      ∧ (∀ name, Call.SubsystemInit name ∉ newCalls h (InitializeSystem js sub h))
      ∧ (∀ rt, Call.JsDisposeRuntime rt ∉ newCalls h (InitializeSystem js sub h))
      ∧ (InitializeSystem js sub h).host.m_jsRuntime = js.createRuntime
      ∧ (InitializeSystem js sub h).host.m_jsContext
        = (if js.createRuntime = none then none else js.createContext)
      ∧ (((InitializeSystem js sub h).host.m_jsRuntime = none
          ∧ (InitializeSystem js sub h).host.m_jsContext = none)
        ↔ js.createRuntime = none) := by
  obtain ⟨cr, cc, sc, g, ho, p, i, sp⟩ := js
  simp only at hfail
  cases cr with
  | none =>
    simp [InitializeSystem, RETURN_IF_JS_ERROR, HologramScriptHost.call, Outcome.value?,
      Outcome.host, newCalls, hr, hc]
  | some r =>
    cases cc with
    | none =>
      simp [InitializeSystem, RETURN_IF_JS_ERROR, HologramScriptHost.call, Outcome.value?,
        Outcome.host, newCalls, hr, hc]
    | some c =>
      have hsc : sc = false := by simpa using hfail
      subst hsc
      simp [InitializeSystem, RETURN_IF_JS_ERROR, HologramScriptHost.call, Outcome.value?,
        Outcome.host, newCalls, hr, hc]

/-- Witness of C8 (amended): context creation fails on a fresh host. -/
theorem InitializeSystem_engine_failure_witness :
    (InitializeSystem contextFailingEngine workingSubsystems (freshHost unsetStatics)).value?
        = some false
      ∧ (∀ name, Call.SubsystemInit name ∉ newCalls (freshHost unsetStatics)
          (InitializeSystem contextFailingEngine workingSubsystems (freshHost unsetStatics)))
      ∧ (∀ rt, Call.JsDisposeRuntime rt ∉ newCalls (freshHost unsetStatics)
          (InitializeSystem contextFailingEngine workingSubsystems (freshHost unsetStatics)))
      ∧ (InitializeSystem contextFailingEngine workingSubsystems
          (freshHost unsetStatics)).host.m_jsRuntime = contextFailingEngine.createRuntime
      ∧ (InitializeSystem contextFailingEngine workingSubsystems
          (freshHost unsetStatics)).host.m_jsContext
        = (if contextFailingEngine.createRuntime = none then none
            else contextFailingEngine.createContext)
      ∧ (((InitializeSystem contextFailingEngine workingSubsystems
            (freshHost unsetStatics)).host.m_jsRuntime = none
          ∧ (InitializeSystem contextFailingEngine workingSubsystems
            (freshHost unsetStatics)).host.m_jsContext = none)
        ↔ contextFailingEngine.createRuntime = none) :=
  InitializeSystem_engine_failure contextFailingEngine workingSubsystems
    (freshHost unsetStatics) rfl rfl (Or.inr (Or.inl rfl))

/-! ## Configuration injection -/

/-- C9 (the code at the failing input): with every collaborator succeeding except
JsGetGlobalObject, which reports an error, EnableHolographicExperimental returns false
on the host that InitializeRendering passes to it, yet InitializeRendering returns
true, and no JsSetProperty call was made at all: line 91 discards the value that
EnableHolographicExperimental returns. -/
theorem InitializeRendering_ignores_injection_failure :
    (InitializeRendering globalObjectFailingEngine workingDeps none StereoEffectMode.Auto
        800 600 systemReadyHost).value? = some true
      ∧ (∀ object name number, Call.JsSetProperty object name number ∉
          (InitializeRendering globalObjectFailingEngine workingDeps none
            StereoEffectMode.Auto 800 600 systemReadyHost).host.calls)
      ∧ (InitializeRendering globalObjectFailingEngine workingDeps none StereoEffectMode.Auto
          800 600 systemReadyHost).host.calls
        = [Call.WindowInit, Call.WindowResize 800 600, Call.ProjectionsInit,
            Call.ContextInitializeRendering, Call.CanvasProjectionsInit,
            Call.JsGetGlobalObject]
      ∧ (EnableHolographicExperimental globalObjectFailingEngine none RenderMode.Flat
          (renderingReadyHost 800 600)).value? = some false := by
  simp [InitializeRendering, EnableHolographicExperimental, TryInitializeWebGlContext,
    ResizeWindow, dimensionsValid, globalObjectFailingEngine, workingEngine, workingDeps,
    systemReadyHost, renderingReadyHost, freshHost, RETURN_IF_FALSE, RETURN_IF_NULL,
    RETURN_IF_JS_ERROR, HologramScriptHost.call, Outcome.value?, Outcome.host]

/-! ## Resource configuration -/

/-- C10: on a host with a window, for every app run RunApp(locator) in which both
load stages succeed: when the locator is local (IsAbsoluteWebUri is false), RunApp
sets UseFileSystem to true on XmlHttpRequest, ImageElement and VideoElement, stores
the one base path GetFileSystemBasePathForJsonPath(locator) in BasePath of all three
and passes it to the window's SetBaseUrl; when the locator is remote (IsAbsoluteWebUri
is true), RunApp sets UseFileSystem to false on all three, stores the one base URI
GetBaseUriForJsonUri(locator) in BaseUrl of all three and passes it to SetBaseUrl.  In
both, ExecuteScripts is the last call and the configuration it sees is the final one.
When a load stage fails, whatever the locator, the static fields are left exactly as
they were and SetBaseUrl is not called. -/
theorem resources_configured_before_execution (sl : ScriptsLoaderHelpers)
    (loader : FakeLoader) (locator : String) (h : HologramScriptHost) (w : WindowElement)
    (hw : h.m_window = some w) :
    (sl.IsAbsoluteWebUri locator = false → loader.stage1 = true → loader.stage2 = true →
        ∃ st : Statics,
          RunApp sl loader locator h = Outcome.returned true
            { h with
              statics := st
              calls := h.calls ++
                [Call.LoadScriptsAsync frameworkManifest, Call.LoadScriptsAsync locator,
                  Call.WindowSetBaseUrl (sl.GetFileSystemBasePathForJsonPath locator),
                  Call.ExecuteScripts st] }
          ∧ st.XmlHttpRequest.UseFileSystem = true
          ∧ st.ImageElement.UseFileSystem = true
          ∧ st.VideoElement.UseFileSystem = true
          ∧ st.XmlHttpRequest.BasePath = sl.GetFileSystemBasePathForJsonPath locator
          ∧ st.ImageElement.BasePath = sl.GetFileSystemBasePathForJsonPath locator
          ∧ st.VideoElement.BasePath = sl.GetFileSystemBasePathForJsonPath locator)
      ∧ (sl.IsAbsoluteWebUri locator = true → loader.stage1 = true → loader.stage2 = true →
        ∃ st : Statics,
          RunApp sl loader locator h = Outcome.returned true
            { h with
              statics := st
              calls := h.calls ++
                [Call.LoadScriptsAsync frameworkManifest, Call.DownloadScriptsAsync locator,
                  Call.WindowSetBaseUrl (sl.GetBaseUriForJsonUri locator),
                  Call.ExecuteScripts st] }
          ∧ st.XmlHttpRequest.UseFileSystem = false
          ∧ st.ImageElement.UseFileSystem = false
          ∧ st.VideoElement.UseFileSystem = false
          ∧ st.XmlHttpRequest.BaseUrl = sl.GetBaseUriForJsonUri locator
          ∧ st.ImageElement.BaseUrl = sl.GetBaseUriForJsonUri locator
          ∧ st.VideoElement.BaseUrl = sl.GetBaseUriForJsonUri locator)
      ∧ ((loader.stage1 && loader.stage2) = false →
        (RunApp sl loader locator h).host.statics = h.statics
          ∧ (∀ base, Call.WindowSetBaseUrl base ∉ newCalls h (RunApp sl loader locator h))
          ∧ (∀ seen, Call.ExecuteScripts seen ∉
              newCalls h (RunApp sl loader locator h))) := by
  obtain ⟨s1, s2⟩ := loader
  refine ⟨?_, ?_, ?_⟩
  · intro hloc h1 h2
    simp only at h1 h2
    subst h1 h2
    refine ⟨
      { XmlHttpRequest :=
          { h.statics.XmlHttpRequest with
            UseFileSystem := true, BasePath := sl.GetFileSystemBasePathForJsonPath locator }
        ImageElement :=
          { h.statics.ImageElement with
            UseFileSystem := true, BasePath := sl.GetFileSystemBasePathForJsonPath locator }
        VideoElement :=
          { h.statics.VideoElement with
            UseFileSystem := true, BasePath := sl.GetFileSystemBasePathForJsonPath locator } },
      ?_, rfl, rfl, rfl, rfl, rfl, rfl⟩
    simp [RunApp, hloc, RunLocalScriptApp, hw, HologramScriptHost.call]
  · intro hloc h1 h2
    simp only at h1 h2
    subst h1 h2
    refine ⟨
      { XmlHttpRequest :=
          { h.statics.XmlHttpRequest with
            UseFileSystem := false, BaseUrl := sl.GetBaseUriForJsonUri locator }
        ImageElement :=
          { h.statics.ImageElement with
            UseFileSystem := false, BaseUrl := sl.GetBaseUriForJsonUri locator }
        VideoElement :=
          { h.statics.VideoElement with
            UseFileSystem := false, BaseUrl := sl.GetBaseUriForJsonUri locator } },
      ?_, rfl, rfl, rfl, rfl, rfl, rfl⟩
    simp [RunApp, hloc, RunWebScriptApp, hw, HologramScriptHost.call]
  · intro hf
    unfold RunApp
    cases sl.IsAbsoluteWebUri locator <;> cases s1 <;> cases s2 <;> simp at hf <;>
      simp [RunLocalScriptApp, RunWebScriptApp, HologramScriptHost.call, Outcome.host,
        newCalls]

/-- Witness of C10: on a host with an 800 by 600 window and both stages succeeding,
the local locator `app/manifest.json` (scenario A) and the remote locator
`https://example.com/apps/demo/manifest.json` (scenario B), each classified by the
example helpers. -/
theorem resources_configured_before_execution_witness :
    (exampleHelpers.IsAbsoluteWebUri "app/manifest.json" = false
      ∧ ∃ st : Statics,
          RunApp exampleHelpers ⟨true, true⟩ "app/manifest.json" (renderingReadyHost 800 600)
            = Outcome.returned true
              { renderingReadyHost 800 600 with
                statics := st
                calls := (renderingReadyHost 800 600).calls ++
                  [Call.LoadScriptsAsync frameworkManifest,
                    Call.LoadScriptsAsync "app/manifest.json",
                    Call.WindowSetBaseUrl
                      (exampleHelpers.GetFileSystemBasePathForJsonPath "app/manifest.json"),
                    Call.ExecuteScripts st] }
          ∧ st.XmlHttpRequest.UseFileSystem = true
          ∧ st.ImageElement.UseFileSystem = true
          ∧ st.VideoElement.UseFileSystem = true
          ∧ st.XmlHttpRequest.BasePath
            = exampleHelpers.GetFileSystemBasePathForJsonPath "app/manifest.json"
          ∧ st.ImageElement.BasePath
            = exampleHelpers.GetFileSystemBasePathForJsonPath "app/manifest.json"
          ∧ st.VideoElement.BasePath
            = exampleHelpers.GetFileSystemBasePathForJsonPath "app/manifest.json")
      ∧ (exampleHelpers.IsAbsoluteWebUri "https://example.com/apps/demo/manifest.json" = true
        ∧ ∃ st : Statics,
          RunApp exampleHelpers ⟨true, true⟩ "https://example.com/apps/demo/manifest.json"
              (renderingReadyHost 800 600)
            = Outcome.returned true
              { renderingReadyHost 800 600 with
                statics := st
                calls := (renderingReadyHost 800 600).calls ++
                  [Call.LoadScriptsAsync frameworkManifest,
                    Call.DownloadScriptsAsync "https://example.com/apps/demo/manifest.json",
                    Call.WindowSetBaseUrl
                      (exampleHelpers.GetBaseUriForJsonUri
                        "https://example.com/apps/demo/manifest.json"),
                    Call.ExecuteScripts st] }
          ∧ st.XmlHttpRequest.UseFileSystem = false
          ∧ st.ImageElement.UseFileSystem = false
          ∧ st.VideoElement.UseFileSystem = false
          ∧ st.XmlHttpRequest.BaseUrl
            = exampleHelpers.GetBaseUriForJsonUri "https://example.com/apps/demo/manifest.json"
          ∧ st.ImageElement.BaseUrl
            = exampleHelpers.GetBaseUriForJsonUri "https://example.com/apps/demo/manifest.json"
          ∧ st.VideoElement.BaseUrl
            = exampleHelpers.GetBaseUriForJsonUri
              "https://example.com/apps/demo/manifest.json") :=
  ⟨⟨by decide,
      (resources_configured_before_execution exampleHelpers ⟨true, true⟩ "app/manifest.json"
        (renderingReadyHost 800 600) ⟨800, 600⟩ rfl).1 (by decide) rfl rfl⟩,
    ⟨by decide,
      (resources_configured_before_execution exampleHelpers ⟨true, true⟩
        "https://example.com/apps/demo/manifest.json"
        (renderingReadyHost 800 600) ⟨800, 600⟩ rfl).2.1 (by decide) rfl rfl⟩⟩

end HologramJS
